import Mathlib

/-!
Verification of the schema-and-KPI differencing engine of `svat_app.py`.

The Python functions `execute_kpi_query`, `validate_kpis`,
`compare_table_differences` and `compare_column_differences` are embedded
shallowly below.  Scalar values travelling between the warehouse and the
comparison logic are modelled by `PyVal` (Python `None`, a finite number, or
a string); machine floats are idealised as rationals.  The warehouse session
is modelled as a function from SQL text to a `QueryResult` (a list of rows,
or a raised exception carrying a message).
-/

/-- A Python scalar value as it flows through `validate_kpis`:
`None`, a finite number (Python `int`/`float`, idealised as `ℚ`),
or a string.  Special float spellings (`inf`, `nan`) as genuine
query results are outside the model. -/
inductive PyVal where
  | pynull : PyVal
  | num : ℚ → PyVal
  | str : String → PyVal
deriving DecidableEq, Repr

/-- `svat_app.py` line 236/238: `isinstance(result, str) and result.startswith("QUERY_ERROR")`.
Error markers are detected by string prefix. -/
def isQueryError : PyVal → Bool
  | PyVal.str s => ("QUERY_ERROR").data.isPrefixOf s.data
  | _ => false

/-- Decimal digits to a natural number (48 is the code point of the zero digit). -/
def natOfDigits (ds : List Char) : ℕ :=
  ds.foldl (fun a c => a * 10 + (c.toNat - 48)) 0

/-- Exponent part of a float literal: optional sign followed by digits. -/
def parseExpPart (s : List Char) : Option ℤ :=
  match s with
  | [] => none
  | c :: r =>
    if c = '+' then
      if r ≠ [] ∧ r.all Char.isDigit then some ((natOfDigits r : ℕ) : ℤ) else none
    else if c = '-' then
      if r ≠ [] ∧ r.all Char.isDigit then some (-((natOfDigits r : ℕ) : ℤ)) else none
    else if (c :: r).all Char.isDigit then some ((natOfDigits (c :: r) : ℕ) : ℤ)
    else none

/-- Unsigned part of a Python float literal: digits, an optional fraction and
an optional exponent.  Models the builtin `float(str)` on plain decimal
literals; surrounding whitespace, underscores and the special spellings
`inf`/`nan` are outside the model (no claim depends on them). -/
def parseUnsignedFloat (s : List Char) : Option ℚ :=
  let intPart := s.takeWhile Char.isDigit
  match s.dropWhile Char.isDigit with
  | [] => if intPart = [] then none else some ((natOfDigits intPart : ℕ) : ℚ)
  | c :: r2 =>
    if c = '.' then
      let fracPart := r2.takeWhile Char.isDigit
      if intPart = [] ∧ fracPart = [] then none
      else
        let base : ℚ := ((natOfDigits intPart : ℕ) : ℚ) +
          ((natOfDigits fracPart : ℕ) : ℚ) / ((10 : ℚ) ^ fracPart.length)
        match r2.dropWhile Char.isDigit with
        | [] => some base
        | e :: r4 =>
          if e = 'e' ∨ e = 'E' then (parseExpPart r4).map (fun k => base * (10 : ℚ) ^ k)
          else none
    else if (c = 'e' ∨ c = 'E') ∧ intPart ≠ [] then
      (parseExpPart r2).map (fun k => ((natOfDigits intPart : ℕ) : ℚ) * (10 : ℚ) ^ k)
    else none

/-- Python `float(s)` on a string: optional sign, then an unsigned literal. -/
def parsePyFloat (s : String) : Option ℚ :=
  match s.data with
  | [] => none
  | c :: r =>
    if c = '+' then parseUnsignedFloat r
    else if c = '-' then (parseUnsignedFloat r).map (fun q => -q)
    else parseUnsignedFloat (c :: r)

/-- `svat_app.py` lines 245-246: `float(result)`.  `float(None)` raises
`TypeError`, a numeric value coerces to itself, a string is parsed;
`none` is the raised-exception outcome (caught at line 252). -/
def pyFloat : PyVal → Option ℚ
  | PyVal.pynull => none
  | PyVal.num q => some q
  | PyVal.str s => parsePyFloat s

/-- Round to the nearest integer, ties to even — the rounding used by
Python string formatting of floats, idealised over `ℚ`. -/
def roundHalfEven (x : ℚ) : ℤ :=
  if x - (⌊x⌋ : ℚ) < 1 / 2 then ⌊x⌋
  else if (1 : ℚ) / 2 < x - (⌊x⌋ : ℚ) then ⌊x⌋ + 1
  else if ⌊x⌋ % 2 = 0 then ⌊x⌋ else ⌊x⌋ + 1

/-- Python `f"{x:.2f}"` for a finite float `x`, idealised over `ℚ`:
two digits after the decimal point, sign taken from the value. -/
def formatFixed2 (q : ℚ) : String :=
  (if q < 0 then "-" else "") ++ toString ((roundHalfEven (q * 100)).natAbs / 100) ++ "." ++
    (if (roundHalfEven (q * 100)).natAbs % 100 < 10 then "0" else "") ++
    toString ((roundHalfEven (q * 100)).natAbs % 100)

/-- The Python variable `diff` of `validate_kpis`: `None`, a float, or the
string `"N/A"`. -/
inductive DiffVal where
  | dnone : DiffVal
  | dnum : ℚ → DiffVal
  | dna : DiffVal
deriving DecidableEq, Repr

/-- The Python variable `pct_diff` of `validate_kpis`: `None`, a finite
float, `float("inf")`, or the string `"N/A"`. -/
inductive PctVal where
  | pnone : PctVal
  | pnum : ℚ → PctVal
  | pinf : PctVal
  | pna : PctVal
deriving DecidableEq, Repr

/-- `svat_app.py` lines 232-255: the per-KPI classification of
`validate_kpis`.  Returns the final values of `(status, diff, pct_diff)`:
error-marker checks first (source side first), then exact equality, then
numeric coercion with guarded division, falling back to `"N/A"`. -/
def compareStatusDiffPct (result_source result_clone : PyVal) :
    String × DiffVal × PctVal :=
  if isQueryError result_source then ("❌ Source Error", DiffVal.dnone, PctVal.pnone)
  else if isQueryError result_clone then ("❌ Clone Error", DiffVal.dnone, PctVal.pnone)
  else if result_source = result_clone then ("✅ Match", DiffVal.dnone, PctVal.pnone)
  else
    match pyFloat result_source, pyFloat result_clone with
    | some num_source, some num_clone =>
      let diff := num_source - num_clone
      ("⚠️ Mismatch", DiffVal.dnum diff,
        if num_source ≠ 0 then PctVal.pnum (diff / num_source * 100) else PctVal.pinf)
    | _, _ => ("⚠️ Mismatch", DiffVal.dna, PctVal.pna)

/-- `svat_app.py` line 264: `f"{pct_diff:.2f}%" if pct_diff is not None else "N/A"`.
Formatting the string `"N/A"` with the float format code raises `ValueError`
in Python; that outcome is the `Except.error` case, carrying the CPython
message. -/
def formatPct : PctVal → Except String String
  | PctVal.pnone => Except.ok "N/A"
  | PctVal.pnum q => Except.ok (formatFixed2 q ++ "%")
  | PctVal.pinf => Except.ok "inf%"
  | PctVal.pna =>
    Except.error "Unknown format code \x27f\x27 for object of type \x27str\x27"

/-- `svat_app.py` line 263: `diff if diff is not None else "N/A"`. -/
def diffDisplay : DiffVal → PyVal
  | DiffVal.dnone => PyVal.str "N/A"
  | DiffVal.dnum q => PyVal.num q
  | DiffVal.dna => PyVal.str "N/A"

/-- `svat_app.py` line 260: `kpi_query[:100] + "..." if len(kpi_query) > 100 else kpi_query`. -/
def truncQuery (q : String) : String :=
  if q.length > 100 then q.take 100 ++ "..." else q

/-- One row of the result frame assembled by `validate_kpis`. -/
structure KpiRow where
  kpiId : PyVal
  kpiName : PyVal
  query : String
  sourceValue : PyVal
  cloneValue : PyVal
  difference : PyVal
  differencePercent : String
  status : String
deriving DecidableEq, Repr

/-- `svat_app.py` lines 224-278: the loop body of `validate_kpis` for one
KPI, given the two already-computed scalar results.  The dict construction
at lines 257-266 can raise (only the percent formatting can); the raise is
caught by the per-KPI handler at line 268, which emits the `❌ Error` row. -/
def kpiRowFor (kpiId kpiName : PyVal) (kpiQuery : String)
    (result_source result_clone : PyVal) : KpiRow :=
  let sdp := compareStatusDiffPct result_source result_clone
  match formatPct sdp.2.2 with
  | Except.ok pctStr =>
    { kpiId := kpiId, kpiName := kpiName, query := truncQuery kpiQuery,
      sourceValue := result_source, cloneValue := result_clone,
      difference := diffDisplay sdp.2.1,
      differencePercent := pctStr, status := sdp.1 }
  | Except.error e =>
    { kpiId := kpiId, kpiName := kpiName, query := truncQuery kpiQuery,
      sourceValue := PyVal.str ("Error: " ++ e), cloneValue := PyVal.str "",
      difference := PyVal.str "", differencePercent := "", status := "❌ Error" }

/-- Outcome of executing one SQL statement on the warehouse session:
the fetched rows, or a raised exception carrying its message. -/
inductive QueryResult where
  | rows : List (List PyVal) → QueryResult
  | raises : String → QueryResult

/-- True when the outcome is a raised exception. -/
def isRaises : QueryResult → Bool
  | QueryResult.raises _ => true
  | QueryResult.rows _ => false

/-- Fuel-bounded core of Python `str.replace`: scan left to right; wherever
the (non-empty) token is a prefix, emit the replacement and resume after the
token; otherwise keep one character.  The fuel is always at least the length
of the remaining text, so the first equation never fires on the wrapper. -/
def pyReplaceFuel (tok rep : List Char) : ℕ → List Char → List Char
  | 0, l => l
  | fuel + 1, l =>
    match l with
    | [] => []
    | c :: cs =>
      if tok ≠ [] ∧ tok.isPrefixOf (c :: cs) then
        rep ++ pyReplaceFuel tok rep fuel ((c :: cs).drop tok.length)
      else
        c :: pyReplaceFuel tok rep fuel cs

/-- Python `text.replace(tok, rep)` (all occurrences, left to right,
non-overlapping), for a non-empty token. -/
def pyReplace (tok rep l : List Char) : List Char :=
  pyReplaceFuel tok rep l.length l

/-- The literal placeholder token of `execute_kpi_query`. -/
def orderDataToken : List Char := ("ORDER_DATA").data

/-- `svat_app.py` line 203:
`query.replace("ORDER_DATA", f"{schema}.ORDER_DATA")`. -/
def substituteQuery (query schema : String) : String :=
  ⟨pyReplace orderDataToken (schema.data ++ (".ORDER_DATA").data) query.data⟩

/-- `svat_app.py` lines 205-206: `result = cursor.fetchone` then
`result[0] if result else None`.  Zero rows give `None`; an empty first
row is falsy in Python and also gives `None`. -/
def fetchFirstScalar : List (List PyVal) → PyVal
  | [] => PyVal.pynull
  | [] :: _ => PyVal.pynull
  | (v :: _) :: _ => v

/-- `svat_app.py` lines 199-208: substitute the placeholder, execute, fetch
the first scalar; any exception is caught and converted to the in-band
marker string `"QUERY_ERROR: " ++ message`. -/
def execute_kpi_query (db : String → QueryResult) (query schema : String) : PyVal :=
  match db (substituteQuery query schema) with
  | QueryResult.raises e => PyVal.str ("QUERY_ERROR: " ++ e)
  | QueryResult.rows rws => fetchFirstScalar rws

/-- One row of the `ORDER_KPIS` control table:
`(KPI_ID, KPI_NAME, KPI_VALUE)`, where `KPI_VALUE` is a query template. -/
structure KpiDef where
  kpiId : PyVal
  kpiName : PyVal
  kpiQuery : String

/-- `svat_app.py` lines 223-278: the loop of `validate_kpis` over the
fetched KPI definitions, executing each template against the source and the
target schema and assembling one result row per definition. -/
def validate_kpis (db : String → QueryResult) (kpis : List KpiDef)
    (source_schema target_schema : String) : List KpiRow :=
  kpis.map fun k =>
    kpiRowFor k.kpiId k.kpiName k.kpiQuery
      (execute_kpi_query db k.kpiQuery source_schema)
      (execute_kpi_query db k.kpiQuery target_schema)

/-- Strict lexicographic order on character lists by code point — the model
of the string collation used by the SQL `ORDER BY` in
`compare_table_differences`. -/
def lexLt : List Char → List Char → Bool
  | [], [] => false
  | [], _ :: _ => true
  | _ :: _, [] => false
  | a :: as, b :: bs =>
    if a.toNat < b.toNat then true
    else if b.toNat < a.toNat then false
    else lexLt as bs

/-- Strict lexicographic order on strings. -/
def strLt (a b : String) : Bool := lexLt a.data b.data

/-- Sort key of `compare_table_differences` (`svat_app.py` line 116):
`ORDER BY difference, table_name` — label first, then table name. -/
def rowLE (a b : String × String) : Prop :=
  strLt a.2 b.2 = true ∨ (a.2 = b.2 ∧ (strLt a.1 b.1 = true ∨ a.1 = b.1))

instance : DecidableRel rowLE := fun a b => by
  unfold rowLE
  infer_instance

/-- `svat_app.py` lines 91-121: the table diff.  The SQL full outer join
restricted to `WHERE s.table_name IS NULL OR c.table_name IS NULL` yields
one row per table present on exactly one side; tables missing in the source
are labelled `Table Dropped`, tables missing in the clone are labelled
`Table Added`; the result is ordered by `(difference, table_name)`. -/
def compare_table_differences (sourceTables cloneTables : List String) :
    List (String × String) :=
  List.insertionSort rowLE
    ((cloneTables.filter (fun t => decide (t ∉ sourceTables))).map
        (fun t => (t, "Missing in source - Table Dropped")) ++
      (sourceTables.filter (fun t => decide (t ∉ cloneTables))).map
        (fun t => (t, "Missing in clone - Table Added")))

/-- Lookup in the Python dict built by `{row[0]: row[1] for row in desc}`:
later rows overwrite earlier ones. -/
def dictGet : List (String × String) → String → Option String
  | [], _ => none
  | (k, v) :: rest, c =>
    match dictGet rest c with
    | some v2 => some v2
    | none => if k = c then some v else none

/-- One row of the column-presence diff frame of
`compare_column_differences`. -/
structure ColumnDiffRow where
  table : String
  column : String
  difference : String
  sourceType : Option String
  cloneType : Option String
deriving DecidableEq, Repr

/-- One row of the data-type diff frame of `compare_column_differences`. -/
structure TypeDiffRow where
  table : String
  column : String
  sourceType : String
  cloneType : String
  message : String
deriving DecidableEq, Repr

/-- `svat_app.py` lines 157-186: the per-column loop for one common table,
over a given iteration order of the united column-name set.  A column
missing on one side produces a presence row; a column present on both sides
with differing declared type strings produces a type-change row. -/
def columnDiffRows (t : String) (source_cols clone_cols : List (String × String)) :
    List String → List ColumnDiffRow × List TypeDiffRow
  | [] => ([], [])
  | col :: rest =>
    let acc := columnDiffRows t source_cols clone_cols rest
    match dictGet source_cols col, dictGet clone_cols col with
    | none, ct =>
      (⟨t, col, "Missing in source - Column Dropped", none, ct⟩ :: acc.1, acc.2)
    | some st, none =>
      (⟨t, col, "Missing in clone - Column Added", some st, none⟩ :: acc.1, acc.2)
    | some st, some ct =>
      if st ≠ ct then (acc.1, ⟨t, col, st, ct, "Data Type Changed"⟩ :: acc.2) else acc

/-- `svat_app.py` lines 143-186 for one common table: unite the column-name
sets of the two `DESCRIBE TABLE` outputs and classify each column.  Python
iterates a hash set, whose order is unspecified; the model fixes one
deduplicated order (the claims settled here are order-independent). -/
def columnDiffsForTable (t : String) (source_cols clone_cols : List (String × String)) :
    List ColumnDiffRow × List TypeDiffRow :=
  columnDiffRows t source_cols clone_cols
    ((source_cols.map Prod.fst ++ clone_cols.map Prod.fst).dedup)

/-- `svat_app.py` lines 123-197: the column diff over the tables common to
both schemas (inner join by table name), returning the presence-diff rows
and the type-diff rows. -/
def compare_column_differences (sourceTables cloneTables : List String)
    (sourceDesc cloneDesc : String → List (String × String)) :
    List ColumnDiffRow × List TypeDiffRow :=
  ((((sourceTables.filter (fun t => decide (t ∈ cloneTables))).map
      (fun t => columnDiffsForTable t (sourceDesc t) (cloneDesc t))).map Prod.fst).flatten,
    (((sourceTables.filter (fun t => decide (t ∈ cloneTables))).map
      (fun t => columnDiffsForTable t (sourceDesc t) (cloneDesc t))).map Prod.snd).flatten)

/-- Number of type-change rows one occurrence of column `c` contributes. -/
def typeChangedWeight (source_cols clone_cols : List (String × String)) (c : String) : ℕ :=
  match dictGet source_cols c, dictGet clone_cols c with
  | some st, some ct => if st ≠ ct then 1 else 0
  | _, _ => 0

/-- Number of presence rows one occurrence of column `c` contributes. -/
def presenceWeight (source_cols clone_cols : List (String × String)) (c : String) : ℕ :=
  match dictGet source_cols c, dictGet clone_cols c with
  | some _, some _ => 0
  | _, _ => 1

/-- Separator-joined concatenation: the decompositions of a query template
into fragments around the placeholder token. -/
def joinWith (sep : List Char) : List (List Char) → List Char
  | [] => []
  | [p] => p
  | p :: q :: rest => p ++ sep ++ joinWith sep (q :: rest)

/-- A fragment is clean for a token when no occurrence of the token starts
inside the fragment, even one that would run over into a directly following
token. -/
def cleanPart (tok p : List Char) : Prop :=
  ∀ i < p.length, ¬ tok.isPrefixOf ((p ++ tok).drop i) = true

instance (tok p : List Char) : Decidable (cleanPart tok p) := by
  unfold cleanPart
  infer_instance

/-- A warehouse session that never raises and answers every statement with
the single scalar `"QUERY_ERROR_CODE"` — a genuine string result that
happens to carry the in-band marker prefix. -/
def c10db : String → QueryResult :=
  fun _ => QueryResult.rows [[PyVal.str "QUERY_ERROR_CODE"]]

/-! ### Helper lemmas -/

theorem isPrefixOf_self_append : ∀ (l t : List Char), l.isPrefixOf (l ++ t) = true
  | [], _ => by simp [List.isPrefixOf]
  | c :: cs, t => by
    simp only [List.cons_append, List.isPrefixOf, beq_self_eq_true, Bool.true_and]
    exact isPrefixOf_self_append cs t

theorem isPrefixOf_append_ext : ∀ (l a b : List Char),
    l.isPrefixOf a = true → l.isPrefixOf (a ++ b) = true
  | [], _, _, _ => by simp [List.isPrefixOf]
  | c :: cs, [], _, h => by simp [List.isPrefixOf] at h
  | c :: cs, d :: ds, b, h => by
    simp only [List.isPrefixOf, Bool.and_eq_true, beq_iff_eq] at h
    simp only [List.cons_append, List.isPrefixOf, Bool.and_eq_true, beq_iff_eq]
    exact ⟨h.1, isPrefixOf_append_ext cs ds b h.2⟩

theorem isPrefixOf_of_append : ∀ (l a b : List Char), l.length ≤ a.length →
    l.isPrefixOf (a ++ b) = true → l.isPrefixOf a = true
  | [], _, _, _, _ => by simp [List.isPrefixOf]
  | c :: cs, [], b, hlen, _ => by simp at hlen
  | c :: cs, d :: ds, b, hlen, h => by
    simp only [List.cons_append, List.isPrefixOf, Bool.and_eq_true, beq_iff_eq] at h
    simp only [List.isPrefixOf, Bool.and_eq_true, beq_iff_eq]
    exact ⟨h.1, isPrefixOf_of_append cs ds b (by simpa using hlen) h.2⟩

theorem isQueryError_marker (m : String) :
    isQueryError (PyVal.str ("QUERY_ERROR: " ++ m)) = true := by
  show ("QUERY_ERROR").data.isPrefixOf (("QUERY_ERROR: " ++ m)).data = true
  rw [String.data_append]
  have h : ("QUERY_ERROR: ").data = ("QUERY_ERROR").data ++ [':', ' '] := by decide
  rw [h, List.append_assoc]
  exact isPrefixOf_self_append _ _

theorem parseUnsignedFloat_head_none (c : Char) (r : List Char)
    (h1 : c.isDigit = false) (h2 : c ≠ '.') (h3 : c ≠ 'e') (h4 : c ≠ 'E') :
    parseUnsignedFloat (c :: r) = none := by
  unfold parseUnsignedFloat
  simp [List.takeWhile_cons, List.dropWhile_cons, h1, h2, h3, h4]

theorem pyFloat_some_not_marker (v : PyVal) (q : ℚ) (h : pyFloat v = some q) :
    isQueryError v = false := by
  cases v with
  | pynull => simp [pyFloat] at h
  | num _ => rfl
  | str s =>
    by_cases hq : isQueryError (PyVal.str s) = true
    · exfalso
      have hpre : ("QUERY_ERROR").data.isPrefixOf s.data = true := hq
      have hQ : ("QUERY_ERROR").data = 'Q' :: ("UERY_ERROR").data := by decide
      rw [hQ] at hpre
      cases hd : s.data with
      | nil => rw [hd] at hpre; simp [List.isPrefixOf] at hpre
      | cons c tail =>
        rw [hd] at hpre
        simp only [List.isPrefixOf, Bool.and_eq_true, beq_iff_eq] at hpre
        have hc : c = 'Q' := hpre.1.symm
        have hparse : parsePyFloat s = none := by
          unfold parsePyFloat
          rw [hd, hc]
          simp only [show ('Q' = '+') = False by decide, show ('Q' = '-') = False by decide,
            if_false, ite_false]
          exact parseUnsignedFloat_head_none 'Q' tail (by decide) (by decide) (by decide)
            (by decide)
        have : pyFloat (PyVal.str s) = none := hparse
        rw [this] at h
        exact Option.noConfusion h
    · exact Bool.not_eq_true _ |>.mp hq

theorem kpiRowFor_source_marker (id nm : PyVal) (q : String) (rs rc : PyVal)
    (h : isQueryError rs = true) :
    kpiRowFor id nm q rs rc =
      { kpiId := id, kpiName := nm, query := truncQuery q,
        sourceValue := rs, cloneValue := rc, difference := PyVal.str "N/A",
        differencePercent := "N/A", status := "❌ Source Error" } := by
  simp [kpiRowFor, compareStatusDiffPct, h, formatPct, diffDisplay]

theorem kpiRowFor_clone_marker (id nm : PyVal) (q : String) (rs rc : PyVal)
    (h1 : isQueryError rs = false) (h2 : isQueryError rc = true) :
    kpiRowFor id nm q rs rc =
      { kpiId := id, kpiName := nm, query := truncQuery q,
        sourceValue := rs, cloneValue := rc, difference := PyVal.str "N/A",
        differencePercent := "N/A", status := "❌ Clone Error" } := by
  simp [kpiRowFor, compareStatusDiffPct, h1, h2, formatPct, diffDisplay]

theorem kpiRowFor_numeric (id nm : PyVal) (q : String) (rs rc : PyVal) (ns nc : ℚ)
    (hne : rs ≠ rc) (hs : pyFloat rs = some ns) (hc : pyFloat rc = some nc)
    (hnz : ns ≠ 0) :
    kpiRowFor id nm q rs rc =
      { kpiId := id, kpiName := nm, query := truncQuery q,
        sourceValue := rs, cloneValue := rc, difference := PyVal.num (ns - nc),
        differencePercent := formatFixed2 ((ns - nc) / ns * 100) ++ "%",
        status := "⚠️ Mismatch" } := by
  have h1 : isQueryError rs = false := pyFloat_some_not_marker rs ns hs
  have h2 : isQueryError rc = false := pyFloat_some_not_marker rc nc hc
  simp [kpiRowFor, compareStatusDiffPct, h1, h2, hne, hs, hc, hnz, formatPct, diffDisplay]

theorem roundHalfEven_intCast (n : ℤ) : roundHalfEven ((n : ℚ)) = n := by
  unfold roundHalfEven
  rw [Int.floor_intCast, sub_self]
  norm_num

theorem formatFixed2_twenty : formatFixed2 (20 : ℚ) = "20.00" := by
  unfold formatFixed2
  rw [show (20 : ℚ) * 100 = ((2000 : ℤ) : ℚ) by norm_num, roundHalfEven_intCast,
    if_neg (by norm_num : ¬ ((20 : ℚ) < 0))]
  decide

theorem formatFixed2_zero : formatFixed2 (0 : ℚ) = "0.00" := by
  unfold formatFixed2
  rw [show (0 : ℚ) * 100 = ((0 : ℤ) : ℚ) by norm_num, roundHalfEven_intCast,
    if_neg (by norm_num : ¬ ((0 : ℚ) < 0))]
  decide

theorem pyReplaceFuel_congr (tok rep : List Char) :
    ∀ (f1 f2 : ℕ) (l : List Char), l.length ≤ f1 → l.length ≤ f2 →
      pyReplaceFuel tok rep f1 l = pyReplaceFuel tok rep f2 l := by
  intro f1
  induction f1 with
  | zero =>
    intro f2 l h1 _
    have hl : l = [] := List.length_eq_zero.mp (Nat.le_zero.mp h1)
    subst hl
    cases f2 <;> rfl
  | succ f ih =>
    intro f2 l h1 h2
    cases l with
    | nil => cases f2 <;> rfl
    | cons c cs =>
      cases f2 with
      | zero => simp at h2
      | succ f2' =>
        by_cases hcond : tok ≠ [] ∧ tok.isPrefixOf (c :: cs) = true
        · have htl : 1 ≤ tok.length := by
            cases tok with
            | nil => exact absurd rfl hcond.1
            | cons _ _ => simp
          have hd1 : ((c :: cs).drop tok.length).length ≤ f := by
            rw [List.length_drop]
            simp only [List.length_cons] at h1 ⊢
            omega
          have hd2 : ((c :: cs).drop tok.length).length ≤ f2' := by
            rw [List.length_drop]
            simp only [List.length_cons] at h2 ⊢
            omega
          simp only [pyReplaceFuel, if_pos hcond]
          rw [ih _ _ hd1 hd2]
        · simp only [pyReplaceFuel, if_neg hcond]
          simp only [List.length_cons] at h1 h2
          rw [ih f2' cs (by omega) (by omega)]

theorem pyReplace_cons_skip (tok rep : List Char) (c : Char) (cs : List Char)
    (h : ¬ (tok ≠ [] ∧ tok.isPrefixOf (c :: cs) = true)) :
    pyReplace tok rep (c :: cs) = c :: pyReplace tok rep cs := by
  show pyReplaceFuel tok rep (c :: cs).length (c :: cs) = c :: pyReplaceFuel tok rep cs.length cs
  simp only [List.length_cons, pyReplaceFuel, if_neg h]

theorem pyReplace_token (tok rep rest : List Char) (htok : tok ≠ []) :
    pyReplace tok rep (tok ++ rest) = rep ++ pyReplace tok rep rest := by
  cases tok with
  | nil => exact absurd rfl htok
  | cons t ts =>
    have hcond : (t :: ts) ≠ [] ∧ (t :: ts).isPrefixOf (t :: (ts ++ rest)) = true :=
      ⟨by simp, isPrefixOf_self_append (t :: ts) rest⟩
    show pyReplaceFuel (t :: ts) rep ((t :: ts ++ rest)).length (t :: ts ++ rest) = _
    simp only [List.cons_append, List.length_cons, pyReplaceFuel, if_pos hcond]
    congr 1
    have hdrop : (t :: (ts ++ rest)).drop (ts.length + 1) = rest := by
      simp only [List.drop_succ_cons]
      exact List.drop_left ts rest
    rw [hdrop]
    exact pyReplaceFuel_congr _ _ _ _ _ (by simp) (le_refl _)

theorem pyReplace_skip (tok rep : List Char) :
    ∀ (pre rest : List Char),
      (∀ i < pre.length, ¬ tok.isPrefixOf ((pre ++ rest).drop i) = true) →
      pyReplace tok rep (pre ++ rest) = pre ++ pyReplace tok rep rest
  | [], rest, _ => by simp
  | c :: pre', rest, h => by
    have h0 : ¬ tok.isPrefixOf (c :: (pre' ++ rest)) = true := by
      have := h 0 (by simp)
      simpa using this
    rw [List.cons_append, pyReplace_cons_skip tok rep c (pre' ++ rest)
      (fun hand => h0 hand.2)]
    rw [pyReplace_skip tok rep pre' rest (fun i hi => by
      have hh := h (i + 1) (by simpa using Nat.succ_lt_succ hi)
      simpa using hh)]
    rfl

theorem cleanPart_no_occurrence (tok p rest : List Char) (hp : cleanPart tok p) :
    ∀ i < p.length, ¬ tok.isPrefixOf ((p ++ (tok ++ rest)).drop i) = true := by
  intro i hi hocc
  apply hp i hi
  rw [(List.append_assoc p tok rest).symm] at hocc
  have hle : i ≤ (p ++ tok).length := by
    simp only [List.length_append]
    omega
  rw [List.drop_append_of_le_length hle] at hocc
  have hlen : tok.length ≤ ((p ++ tok).drop i).length := by
    rw [List.length_drop]
    simp only [List.length_append]
    omega
  exact isPrefixOf_of_append tok _ rest hlen hocc

theorem cleanPart_tail (tok p : List Char) (hp : cleanPart tok p) :
    ∀ i < p.length, ¬ tok.isPrefixOf ((p ++ ([] : List Char)).drop i) = true := by
  intro i hi hocc
  apply hp i hi
  rw [List.append_nil] at hocc
  rw [List.drop_append_of_le_length (le_of_lt hi)]
  exact isPrefixOf_append_ext tok (p.drop i) tok hocc

theorem pyReplace_joinWith (tok rep : List Char) (htok : tok ≠ []) :
    ∀ (parts : List (List Char)), (∀ p ∈ parts, cleanPart tok p) →
      pyReplace tok rep (joinWith tok parts) = joinWith rep parts
  | [], _ => rfl
  | [p], h => by
    show pyReplace tok rep p = p
    have hs := pyReplace_skip tok rep p [] (cleanPart_tail tok p (h p (by simp)))
    have hnil : pyReplace tok rep ([] : List Char) = [] := rfl
    rw [List.append_nil, hnil, List.append_nil] at hs
    exact hs
  | p :: q :: rest, h => by
    show pyReplace tok rep (p ++ tok ++ joinWith tok (q :: rest)) = _
    rw [List.append_assoc]
    rw [pyReplace_skip tok rep p (tok ++ joinWith tok (q :: rest))
      (cleanPart_no_occurrence tok p _ (h p (by simp)))]
    rw [pyReplace_token tok rep _ htok]
    rw [pyReplace_joinWith tok rep htok (q :: rest) (fun x hx => h x (by simp [hx]))]
    show p ++ (rep ++ joinWith rep (q :: rest)) = joinWith rep (p :: q :: rest)
    rw [joinWith, List.append_assoc]

theorem char_eq_of_toNat_eq (a b : Char) (h : a.toNat = b.toNat) : a = b :=
  Char.eq_of_val_eq (UInt32.ext h)

theorem string_eq_of_data_eq (a b : String) (h : a.data = b.data) : a = b := by
  cases a
  cases b
  exact congrArg String.mk h

theorem lexLt_trans : ∀ (a b c : List Char),
    lexLt a b = true → lexLt b c = true → lexLt a c = true
  | [], [], _, h1, _ => by simp [lexLt] at h1
  | [], _ :: _, [], _, h2 => by simp [lexLt] at h2
  | [], _ :: _, _ :: _, _, _ => rfl
  | _ :: _, [], _, h1, _ => by simp [lexLt] at h1
  | _ :: _, _ :: _, [], _, h2 => by simp [lexLt] at h2
  | a :: as, b :: bs, c :: cs, h1, h2 => by
    simp only [lexLt] at h1 h2 ⊢
    rcases Nat.lt_trichotomy a.toNat b.toNat with hab | hab | hab
    · rcases Nat.lt_trichotomy b.toNat c.toNat with hbc | hbc | hbc
      · simp [Nat.lt_trans hab hbc]
      · simp [hbc ▸ hab]
      · rw [if_neg (by omega), if_pos (by omega)] at h2
        exact absurd h2 (by simp)
    · rcases Nat.lt_trichotomy b.toNat c.toNat with hbc | hbc | hbc
      · simp [hab ▸ hbc]
      · rw [if_neg (by omega), if_neg (by omega)] at h1
        rw [if_neg (by omega), if_neg (by omega)] at h2
        rw [if_neg (by omega), if_neg (by omega)]
        exact lexLt_trans as bs cs h1 h2
      · rw [if_neg (by omega), if_pos (by omega)] at h2
        exact absurd h2 (by simp)
    · rw [if_neg (by omega), if_pos (by omega)] at h1
      exact absurd h1 (by simp)

theorem lexLt_eq_of_both_false : ∀ (a b : List Char),
    lexLt a b = false → lexLt b a = false → a = b
  | [], [], _, _ => rfl
  | [], _ :: _, h1, _ => by simp [lexLt] at h1
  | _ :: _, [], _, h2 => by simp [lexLt] at h2
  | a :: as, b :: bs, h1, h2 => by
    simp only [lexLt] at h1 h2
    rcases Nat.lt_trichotomy a.toNat b.toNat with hab | hab | hab
    · rw [if_pos (by omega)] at h1
      exact absurd h1 (by simp)
    · rw [if_neg (by omega), if_neg (by omega)] at h1
      rw [if_neg (by omega), if_neg (by omega)] at h2
      rw [char_eq_of_toNat_eq a b hab, lexLt_eq_of_both_false as bs h1 h2]
    · rw [if_pos (by omega)] at h2
      exact absurd h2 (by simp)

theorem strLt_eq_of_both_false (a b : String) (h1 : strLt a b = false)
    (h2 : strLt b a = false) : a = b :=
  string_eq_of_data_eq a b (lexLt_eq_of_both_false a.data b.data h1 h2)

instance : IsTrans (String × String) rowLE where
  trans := by
    rintro a b c (h1 | ⟨h1e, h1n⟩) (h2 | ⟨h2e, h2n⟩)
    · exact Or.inl (lexLt_trans _ _ _ h1 h2)
    · exact Or.inl (h2e ▸ h1)
    · exact Or.inl (h1e ▸ h2)
    · refine Or.inr ⟨h1e.trans h2e, ?_⟩
      rcases h1n with h1n | h1n
      · rcases h2n with h2n | h2n
        · exact Or.inl (lexLt_trans _ _ _ h1n h2n)
        · exact Or.inl (h2n ▸ h1n)
      · exact h1n ▸ h2n

instance : IsTotal (String × String) rowLE where
  total := by
    intro a b
    cases h2 : strLt a.2 b.2 with
    | true => exact Or.inl (Or.inl h2)
    | false =>
      cases h2' : strLt b.2 a.2 with
      | true => exact Or.inr (Or.inl h2')
      | false =>
        have he2 : a.2 = b.2 := strLt_eq_of_both_false _ _ h2 h2'
        cases h1 : strLt a.1 b.1 with
        | true => exact Or.inl (Or.inr ⟨he2, Or.inl h1⟩)
        | false =>
          cases h1' : strLt b.1 a.1 with
          | true => exact Or.inr (Or.inr ⟨he2.symm, Or.inl h1'⟩)
          | false =>
            exact Or.inl (Or.inr ⟨he2, Or.inr (strLt_eq_of_both_false _ _ h1 h1')⟩)

theorem dictGet_isSome_of_mem : ∀ (d : List (String × String)) (c : String),
    c ∈ d.map Prod.fst → ∃ v, dictGet d c = some v
  | [], c, h => by simp at h
  | (k, w) :: rest, c, h => by
    simp only [dictGet]
    cases hr : dictGet rest c with
    | some v2 => exact ⟨v2, rfl⟩
    | none =>
      simp only [List.map_cons, List.mem_cons] at h
      rcases h with h | h
      · exact ⟨w, by simp [h.symm]⟩
      · rcases dictGet_isSome_of_mem rest c h with ⟨v, hv⟩
        rw [hv] at hr
        exact Option.noConfusion hr

theorem mem_of_dictGet_some : ∀ (d : List (String × String)) (c v : String),
    dictGet d c = some v → c ∈ d.map Prod.fst
  | [], c, v, h => by simp [dictGet] at h
  | (k, w) :: rest, c, v, h => by
    simp only [dictGet] at h
    cases hr : dictGet rest c with
    | some v2 =>
      have hm : c ∈ rest.map Prod.fst := mem_of_dictGet_some rest c v2 hr
      simp [hm]
    | none =>
      rw [hr] at h
      by_cases hk : k = c
      · simp [hk]
      · rw [if_neg hk] at h
        exact Option.noConfusion h

theorem columnDiffRows_self (t : String) (d : List (String × String)) :
    ∀ (cols : List String), (∀ c ∈ cols, c ∈ d.map Prod.fst) →
      columnDiffRows t d d cols = ([], [])
  | [], _ => rfl
  | col :: rest, h => by
    have ih := columnDiffRows_self t d rest (fun c hc => h c (by simp [hc]))
    rcases dictGet_isSome_of_mem d col (h col (by simp)) with ⟨v, hv⟩
    simp [columnDiffRows, ih, hv]

theorem columnDiffRows_countP_fst (t : String) (src clo : List (String × String))
    (col : String) :
    ∀ cols : List String,
      ((columnDiffRows t src clo cols).1.countP (fun r => r.column == col)) =
        cols.count col * presenceWeight src clo col
  | [] => by simp [columnDiffRows]
  | c :: rest => by
    have ih := columnDiffRows_countP_fst t src clo col rest
    rw [List.count_cons]
    cases hsrc : dictGet src c with
    | none =>
      simp only [columnDiffRows, hsrc, List.countP_cons, ih]
      by_cases hc : c = col
      · subst hc
        simp [presenceWeight, hsrc]
      · simp [hc, (by simpa using hc : ¬ (c == col) = true)]
    | some st =>
      cases hclo : dictGet clo c with
      | none =>
        simp only [columnDiffRows, hsrc, hclo, List.countP_cons, ih]
        by_cases hc : c = col
        · subst hc
          simp [presenceWeight, hsrc, hclo]
        · simp [hc, (by simpa using hc : ¬ (c == col) = true)]
      | some ct =>
        by_cases hst : st ≠ ct
        · simp only [columnDiffRows, hsrc, hclo, if_pos hst, ih]
          by_cases hc : c = col
          · subst hc
            simp [presenceWeight, hsrc, hclo]
          · simp [hc]
        · simp only [columnDiffRows, hsrc, hclo, if_neg hst, ih]
          by_cases hc : c = col
          · subst hc
            simp [presenceWeight, hsrc, hclo]
          · simp [hc]

theorem columnDiffRows_countP_snd (t : String) (src clo : List (String × String))
    (col : String) :
    ∀ cols : List String,
      ((columnDiffRows t src clo cols).2.countP (fun r => r.column == col)) =
        cols.count col * typeChangedWeight src clo col
  | [] => by simp [columnDiffRows]
  | c :: rest => by
    have ih := columnDiffRows_countP_snd t src clo col rest
    rw [List.count_cons]
    cases hsrc : dictGet src c with
    | none =>
      simp only [columnDiffRows, hsrc, ih]
      by_cases hc : c = col
      · subst hc
        simp [typeChangedWeight, hsrc]
      · simp [hc]
    | some st =>
      cases hclo : dictGet clo c with
      | none =>
        simp only [columnDiffRows, hsrc, hclo, ih]
        by_cases hc : c = col
        · subst hc
          simp [typeChangedWeight, hsrc, hclo]
        · simp [hc]
      | some ct =>
        by_cases hst : st ≠ ct
        · simp only [columnDiffRows, hsrc, hclo, if_pos hst, List.countP_cons, ih]
          by_cases hc : c = col
          · subst hc
            simp [typeChangedWeight, hsrc, hclo, hst]
          · simp [hc, (by simpa using hc : ¬ (c == col) = true)]
        · simp only [columnDiffRows, hsrc, hclo, if_neg hst, ih]
          by_cases hc : c = col
          · subst hc
            simp [typeChangedWeight, hsrc, hclo, hst]
          · simp [hc]

theorem columnDiffRows_mem_snd (t : String) (src clo : List (String × String)) :
    ∀ (cols : List String) (r : TypeDiffRow), r ∈ (columnDiffRows t src clo cols).2 →
      r.table = t ∧ dictGet src r.column = some r.sourceType ∧
        dictGet clo r.column = some r.cloneType ∧ r.sourceType ≠ r.cloneType ∧
        r.message = "Data Type Changed"
  | [], r, h => by simp [columnDiffRows] at h
  | c :: rest, r, h => by
    have ih := columnDiffRows_mem_snd t src clo rest
    cases hsrc : dictGet src c with
    | none =>
      simp only [columnDiffRows, hsrc] at h
      exact ih r h
    | some st =>
      cases hclo : dictGet clo c with
      | none =>
        simp only [columnDiffRows, hsrc, hclo] at h
        exact ih r h
      | some ct =>
        by_cases hst : st ≠ ct
        · simp only [columnDiffRows, hsrc, hclo, if_pos hst, List.mem_cons] at h
          rcases h with h | h
          · subst h
            exact ⟨rfl, by simpa using hsrc, by simpa using hclo, hst, rfl⟩
          · exact ih r h
        · simp only [columnDiffRows, hsrc, hclo, if_neg hst] at h
          exact ih r h

theorem countP_label_map (lab lab2 t : String) (l : List String) :
    ((l.map (fun x => (x, lab))).countP (fun r => r == (t, lab2))) =
      if lab = lab2 then l.count t else 0 := by
  induction l with
  | nil => simp
  | cons a l ih =>
    simp only [List.map_cons, List.countP_cons, ih, List.count_cons]
    by_cases hl : lab = lab2
    · subst hl
      by_cases ha : a = t
      · subst ha
        simp
      · simp [ha, Prod.ext_iff]
    · simp [hl, Prod.ext_iff]

theorem countP_fst_map (lab t : String) (l : List String) :
    ((l.map (fun x => (x, lab))).countP (fun r => r.1 == t)) = l.count t := by
  induction l with
  | nil => simp
  | cons a l ih =>
    simp only [List.map_cons, List.countP_cons, ih, List.count_cons]

theorem compare_table_differences_countP (sourceTables cloneTables : List String)
    (p : (String × String) → Bool) :
    (compare_table_differences sourceTables cloneTables).countP p =
      ((cloneTables.filter (fun t => decide (t ∉ sourceTables))).map
          (fun t => (t, "Missing in source - Table Dropped"))).countP p +
        ((sourceTables.filter (fun t => decide (t ∉ cloneTables))).map
          (fun t => (t, "Missing in clone - Table Added"))).countP p := by
  unfold compare_table_differences
  rw [(List.perm_insertionSort rowLE _).countP_eq]
  exact List.countP_append _ _ _

theorem join_map_eq_nil {α β : Type} (l : List α) (f : α → List β)
    (h : ∀ x ∈ l, f x = []) : (l.map f).flatten = [] := by
  induction l with
  | nil => rfl
  | cons a t ih =>
    rw [List.map_cons, List.flatten_cons, h a (by simp),
      ih (fun x hx => h x (by simp [hx]))]
    rfl

theorem column_diffs_join_nil (common : List String)
    (f : String → List ColumnDiffRow × List TypeDiffRow)
    (h : ∀ t ∈ common, f t = ([], [])) :
    (((common.map f).map Prod.fst).flatten = ([] : List ColumnDiffRow)) ∧
      (((common.map f).map Prod.snd).flatten = ([] : List TypeDiffRow)) := by
  constructor
  · rw [List.map_map]
    exact join_map_eq_nil common _ (fun x hx => by simp [Function.comp, h x hx])
  · rw [List.map_map]
    exact join_map_eq_nil common _ (fun x hx => by simp [Function.comp, h x hx])

/-! ### Claim theorems -/

/-- C1: the claim says an unequal, non-numeric comparison yields a row with
`difference = "N/A"`, `differencePercent = "N/A"` and status Mismatch, the
coercion failure not being treated as an error.  The code indeed computes
those values, but rendering the percent cell applies the float format code
to the string `"N/A"`, which raises `ValueError`; the per-KPI handler then
emits a `❌ Error` row instead.  Evaluated here at the failing input
`sourceValue = "abc"`, `targetValue = "def"`. -/
theorem c1_coercion_failure_yields_error_row :
    kpiRowFor (PyVal.num 1) (PyVal.str "K") "Q" (PyVal.str "abc") (PyVal.str "def") =
      { kpiId := PyVal.num 1, kpiName := PyVal.str "K", query := "Q",
        sourceValue := PyVal.str
          "Error: Unknown format code \x27f\x27 for object of type \x27str\x27",
        cloneValue := PyVal.str "", difference := PyVal.str "",
        differencePercent := "", status := "❌ Error" } := by
  decide

/-- C2: for every warehouse session, `execute_kpi_query` never propagates an
exception: a raised query becomes the in-band marker string, zero rows become
the null scalar, and otherwise the first column of the first row is returned;
the run produces exactly one row per fetched KPI definition, and a KPI whose
source execution raises still yields a row, with the error status. -/
theorem c2_execute_total_one_row_per_kpi (db : String → QueryResult)
    (kpis : List KpiDef) (s t q sch : String) (id nm rc : PyVal) :
    (validate_kpis db kpis s t).length = kpis.length ∧
    (match db (substituteQuery q sch) with
     | QueryResult.raises m =>
         execute_kpi_query db q sch = PyVal.str ("QUERY_ERROR: " ++ m)
     | QueryResult.rows [] => execute_kpi_query db q sch = PyVal.pynull
     | QueryResult.rows ([] :: _) => execute_kpi_query db q sch = PyVal.pynull
     | QueryResult.rows ((v :: _) :: _) => execute_kpi_query db q sch = v) ∧
    (match db (substituteQuery q sch) with
     | QueryResult.raises _ =>
         (kpiRowFor id nm q (execute_kpi_query db q sch) rc).status = "❌ Source Error"
     | QueryResult.rows _ => True) := by
  refine ⟨List.length_map _ _, ?_, ?_⟩
  · rcases h : db (substituteQuery q sch) with rws | m
    · rcases rws with _ | ⟨r, rest⟩
      · simp [execute_kpi_query, h, fetchFirstScalar]
      · rcases r with _ | ⟨v, vs⟩ <;> simp [execute_kpi_query, h, fetchFirstScalar]
    · simp [execute_kpi_query, h]
  · rcases h : db (substituteQuery q sch) with rws | m
    · trivial
    · have hm : execute_kpi_query db q sch = PyVal.str ("QUERY_ERROR: " ++ m) := by
        simp [execute_kpi_query, h]
      rw [hm, kpiRowFor_source_marker id nm q _ rc (isQueryError_marker m)]

/-- C3: comparing the numeric results `0` (source) and `5` (target) yields
status Mismatch and renders the percent cell as the infinite indicator
`inf%` (Python formats `float("inf")` as `inf`); no division error occurs —
the zero divisor is caught by the guard and no exception row is emitted. -/
theorem c3_zero_source_infinite_percent :
    (kpiRowFor (PyVal.num 1) (PyVal.str "K") "Q" (PyVal.num 0) (PyVal.num 5)).status =
        "⚠️ Mismatch" ∧
      (kpiRowFor (PyVal.num 1) (PyVal.str "K") "Q" (PyVal.num 0)
          (PyVal.num 5)).differencePercent = "inf%" := by
  constructor <;> decide

/-- C5: whenever the source result is an error marker the row status is the
source-error status, regardless of the target result — even if both sides
are equal markers, so the classification precedes the equality and numeric
steps; when only the target result is a marker, the status is the
clone-error status. -/
theorem c5_error_marker_priority (id nm : PyVal) (q : String) (rs rc : PyVal) :
    (isQueryError rs = true →
      (kpiRowFor id nm q rs rc).status = "❌ Source Error") ∧
    (isQueryError rs = false → isQueryError rc = true →
      (kpiRowFor id nm q rs rc).status = "❌ Clone Error") := by
  constructor
  · intro h
    rw [kpiRowFor_source_marker id nm q rs rc h]
  · intro h1 h2
    rw [kpiRowFor_clone_marker id nm q rs rc h1 h2]

/-- C5 witness: the spec example `compare(ErrorMarker("timeout"), 42)`. -/
theorem c5_error_marker_witness :
    (kpiRowFor (PyVal.num 1) (PyVal.str "K") "Q" (PyVal.str "QUERY_ERROR: timeout")
        (PyVal.num 42)).status = "❌ Source Error" :=
  (c5_error_marker_priority (PyVal.num 1) (PyVal.str "K") "Q"
    (PyVal.str "QUERY_ERROR: timeout") (PyVal.num 42)).1 (by decide)

/-- C9: the string `"100"` and the number `100` are not equal under the exact
equality test (which runs before coercion), but both coerce to `100`, so the
row is a Mismatch with computed difference `0` and percent `0.00%` rather
than a Match. -/
theorem c9_exact_equality_not_numeric :
    (decide (PyVal.str "100" = PyVal.num 100) = false) ∧
    (kpiRowFor (PyVal.num 1) (PyVal.str "K") "Q" (PyVal.str "100")
        (PyVal.num 100)).status = "⚠️ Mismatch" ∧
    (kpiRowFor (PyVal.num 1) (PyVal.str "K") "Q" (PyVal.str "100")
        (PyVal.num 100)).difference = PyVal.num 0 ∧
    (kpiRowFor (PyVal.num 1) (PyVal.str "K") "Q" (PyVal.str "100")
        (PyVal.num 100)).differencePercent = "0.00%" := by
  have h := kpiRowFor_numeric (PyVal.num 1) (PyVal.str "K") "Q" (PyVal.str "100")
    (PyVal.num 100) 100 100 (by decide) (by decide) rfl (by norm_num)
  refine ⟨by decide, ?_, ?_, ?_⟩
  · rw [h]
  · rw [h, show (100 : ℚ) - 100 = 0 by norm_num]
  · rw [h, show ((100 : ℚ) - 100) / 100 * 100 = 0 by norm_num, formatFixed2_zero]
    decide

/-- C10: error markers are in-band strings with the `QUERY_ERROR` prefix, so
a warehouse session that never raises and genuinely returns the scalar string
`"QUERY_ERROR_CODE"` is misclassified: the run reports the source-error
status although no query failed. -/
theorem c10_inband_marker_misclassification :
    (∀ qry, isRaises (c10db qry) = false) ∧
    execute_kpi_query c10db "SELECT X FROM T" "S" = PyVal.str "QUERY_ERROR_CODE" ∧
    ((validate_kpis c10db [⟨PyVal.num 1, PyVal.str "K", "SELECT X FROM T"⟩] "S" "T").map
      (fun r => r.status)) = ["❌ Source Error"] := by
  refine ⟨fun qry => rfl, by decide, by decide⟩

/-- C4: whenever both results coerce to numbers, the values are unequal and
the source number is non-zero, the row is a Mismatch whose difference is
`source - target` and whose percent cell is `difference / source * 100`
formatted to two decimals with a trailing percent sign. -/
theorem c4_numeric_mismatch_difference_percent (id nm : PyVal) (q : String)
    (rs rc : PyVal) (ns nc : ℚ) (hs : pyFloat rs = some ns)
    (hc : pyFloat rc = some nc) (hne : rs ≠ rc) (hnz : ns ≠ 0) :
    (kpiRowFor id nm q rs rc).status = "⚠️ Mismatch" ∧
      (kpiRowFor id nm q rs rc).difference = PyVal.num (ns - nc) ∧
      (kpiRowFor id nm q rs rc).differencePercent =
        formatFixed2 ((ns - nc) / ns * 100) ++ "%" := by
  rw [kpiRowFor_numeric id nm q rs rc ns nc hne hs hc hnz]
  exact ⟨rfl, rfl, rfl⟩

/-- C4 witness: the spec example `compare(100, 80)` gives difference `20` and
percent `"20.00%"`. -/
theorem c4_numeric_mismatch_witness :
    (kpiRowFor (PyVal.num 1) (PyVal.str "K") "Q" (PyVal.num 100)
        (PyVal.num 80)).status = "⚠️ Mismatch" ∧
      (kpiRowFor (PyVal.num 1) (PyVal.str "K") "Q" (PyVal.num 100)
          (PyVal.num 80)).difference = PyVal.num 20 ∧
      (kpiRowFor (PyVal.num 1) (PyVal.str "K") "Q" (PyVal.num 100)
          (PyVal.num 80)).differencePercent = "20.00%" := by
  obtain ⟨h1, h2, h3⟩ := c4_numeric_mismatch_difference_percent (PyVal.num 1)
    (PyVal.str "K") "Q" (PyVal.num 100) (PyVal.num 80) 100 80 rfl rfl (by decide)
    (by norm_num)
  refine ⟨h1, ?_, ?_⟩
  · rw [h2, show (100 : ℚ) - 80 = 20 by norm_num]
  · rw [h3, show ((100 : ℚ) - 80) / 100 * 100 = 20 by norm_num, formatFixed2_twenty]
    decide

/-- C6: for every schema name and every decomposition of a query template
into fragments joined by the placeholder token `ORDER_DATA` (no token
occurrence starting inside a fragment), `execute_kpi_query` substitutes
every occurrence: the substituted SQL is the same fragments joined by
`<schema>.ORDER_DATA`, and that is the statement handed to the warehouse. -/
theorem c6_substitute_every_occurrence (schema : String) (parts : List (List Char))
    (h : ∀ p ∈ parts, cleanPart orderDataToken p) :
    substituteQuery ⟨joinWith orderDataToken parts⟩ schema =
        ⟨joinWith (schema.data ++ (".ORDER_DATA").data) parts⟩ ∧
      ∀ db : String → QueryResult,
        execute_kpi_query db ⟨joinWith orderDataToken parts⟩ schema =
          (match db ⟨joinWith (schema.data ++ (".ORDER_DATA").data) parts⟩ with
           | QueryResult.raises e => PyVal.str ("QUERY_ERROR: " ++ e)
           | QueryResult.rows rws => fetchFirstScalar rws) := by
  have hrep : pyReplace orderDataToken (schema.data ++ (".ORDER_DATA").data)
      (joinWith orderDataToken parts) =
        joinWith (schema.data ++ (".ORDER_DATA").data) parts :=
    pyReplace_joinWith _ _ (by decide) parts h
  have hsub : substituteQuery ⟨joinWith orderDataToken parts⟩ schema =
      ⟨joinWith (schema.data ++ (".ORDER_DATA").data) parts⟩ := by
    unfold substituteQuery
    exact congrArg String.mk hrep
  refine ⟨hsub, fun db => ?_⟩
  unfold execute_kpi_query
  rw [hsub]

/-- C6 witness: the spec template with two occurrences of the token, run with
target schema `SALES_CLONE`, has both occurrences substituted. -/
theorem c6_substitute_witness :
    substituteQuery
        "SELECT COUNT(*) FROM ORDER_DATA WHERE ORDER_DATA.STATUS=\x27OPEN\x27"
        "SALES_CLONE" =
      "SELECT COUNT(*) FROM SALES_CLONE.ORDER_DATA WHERE SALES_CLONE.ORDER_DATA.STATUS=\x27OPEN\x27" := by
  have h := (c6_substitute_every_occurrence "SALES_CLONE"
    [("SELECT COUNT(*) FROM ").data, (" WHERE ").data, (".STATUS=\x27OPEN\x27").data]
    (by decide)).1
  have harg :
      ("SELECT COUNT(*) FROM ORDER_DATA WHERE ORDER_DATA.STATUS=\x27OPEN\x27" : String) =
        ⟨joinWith orderDataToken [("SELECT COUNT(*) FROM ").data, (" WHERE ").data,
          (".STATUS=\x27OPEN\x27").data]⟩ := by decide
  rw [harg, h]
  decide

/-- C7: identical schemas (same table list, same describe output) produce an
empty table diff and an empty column diff; a column present in both describe
outputs produces no row at all when its declared type strings are equal, and
exactly one type-change row — recording both type strings verbatim — when
they differ. -/
theorem c7_identical_empty_and_type_change (ts : List String)
    (descf : String → List (String × String)) (t c ty1 ty2 : String)
    (src clo : List (String × String))
    (h1 : dictGet src c = some ty1) (h2 : dictGet clo c = some ty2) :
    compare_table_differences ts ts = [] ∧
    compare_column_differences ts ts descf descf = ([], []) ∧
    (ty1 = ty2 →
      ((columnDiffsForTable t src clo).1.countP (fun r => r.column == c) = 0 ∧
        (columnDiffsForTable t src clo).2.countP (fun r => r.column == c) = 0)) ∧
    (ty1 ≠ ty2 →
      ((columnDiffsForTable t src clo).2.countP (fun r => r.column == c) = 1 ∧
        ∀ r, r ∈ (columnDiffsForTable t src clo).2 → r.column = c →
          r = ⟨t, c, ty1, ty2, "Data Type Changed"⟩)) := by
  have ha : compare_table_differences ts ts = [] := by
    unfold compare_table_differences
    have hf : ts.filter (fun t0 => decide (t0 ∉ ts)) = [] :=
      List.filter_eq_nil_iff.mpr (fun a haa => by simp [haa])
    rw [hf]
    rfl
  have hper : ∀ t0 ∈ ts.filter (fun t0 => decide (t0 ∈ ts)),
      columnDiffsForTable t0 (descf t0) (descf t0) = ([], []) := by
    intro t0 _
    unfold columnDiffsForTable
    apply columnDiffRows_self
    intro c0 hc0
    rw [List.mem_dedup] at hc0
    simpa using hc0
  have hb : compare_column_differences ts ts descf descf = ([], []) := by
    unfold compare_column_differences
    obtain ⟨hj1, hj2⟩ := column_diffs_join_nil _ _ hper
    rw [hj1, hj2]
  refine ⟨ha, hb, ?_, ?_⟩
  · intro hty
    constructor
    · unfold columnDiffsForTable
      rw [columnDiffRows_countP_fst]
      simp [presenceWeight, h1, h2]
    · unfold columnDiffsForTable
      rw [columnDiffRows_countP_snd]
      simp [typeChangedWeight, h1, h2, hty]
  · intro hty
    constructor
    · unfold columnDiffsForTable
      rw [columnDiffRows_countP_snd]
      have hmem : c ∈ ((src.map Prod.fst ++ clo.map Prod.fst)).dedup := by
        rw [List.mem_dedup, List.mem_append]
        exact Or.inl (mem_of_dictGet_some src c ty1 h1)
      rw [List.count_eq_one_of_mem (List.nodup_dedup _) hmem]
      simp [typeChangedWeight, h1, h2, hty]
    · intro r hr hrc
      obtain ⟨hrt, hrs, hrc2, _, hrm⟩ := columnDiffRows_mem_snd t src clo _ r hr
      rw [hrc, h1] at hrs
      rw [hrc, h2] at hrc2
      have e1 : ty1 = r.sourceType := Option.some_injective _ hrs
      have e2 : ty2 = r.cloneType := Option.some_injective _ hrc2
      cases r with
      | mk rt rcol rst rct rmsg =>
        simp only at hrt hrc hrm e1 e2
        rw [hrt, hrc, hrm, ← e1, ← e2]

/-- C7 witness: the spec types, one equal pair and one differing pair. -/
theorem c7_identical_witness :
    compare_table_differences ["T1"] ["T1"] = [] ∧
    (columnDiffsForTable "T" [("C", "NUMBER(38,0)")] [("C", "NUMBER(38,0)")]).2.countP
        (fun r => r.column == "C") = 0 ∧
    (columnDiffsForTable "T" [("C", "NUMBER(38,0)")] [("C", "VARCHAR(16)")]).2.countP
        (fun r => r.column == "C") = 1 ∧
    (columnDiffsForTable "T" [("C", "NUMBER(38,0)")] [("C", "VARCHAR(16)")]).2 =
      [⟨"T", "C", "NUMBER(38,0)", "VARCHAR(16)", "Data Type Changed"⟩] := by
  refine ⟨?_, ?_, ?_, by decide⟩
  · exact (c7_identical_empty_and_type_change ["T1"] (fun _ => []) "T" "C"
      "NUMBER(38,0)" "VARCHAR(16)" [("C", "NUMBER(38,0)")] [("C", "VARCHAR(16)")]
      (by decide) (by decide)).1
  · exact ((c7_identical_empty_and_type_change ["T1"] (fun _ => []) "T" "C"
      "NUMBER(38,0)" "NUMBER(38,0)" [("C", "NUMBER(38,0)")] [("C", "NUMBER(38,0)")]
      (by decide) (by decide)).2.2.1 rfl).2
  · exact ((c7_identical_empty_and_type_change ["T1"] (fun _ => []) "T" "C"
      "NUMBER(38,0)" "VARCHAR(16)" [("C", "NUMBER(38,0)")] [("C", "VARCHAR(16)")]
      (by decide) (by decide)).2.2.2 (by decide)).1

/-- C8 counterexample: with the table `ORDERS` present only in the source,
the code emits one row labelled `Missing in clone - Table Added` and no
`Table Dropped` row — the claim asserts exactly one `TableDropped` entry for
a source-only table, which is false. -/
theorem c8_counterexample :
    compare_table_differences ["ORDERS"] [] =
        [("ORDERS", "Missing in clone - Table Added")] ∧
      (compare_table_differences ["ORDERS"] []).countP
        (fun r => r.2 == "Missing in source - Table Dropped") = 0 := by
  constructor <;> decide

/-- C8 amended: a table present only in the source yields exactly one row
labelled `Missing in clone - Table Added`; a table present only in the
target yields exactly one row labelled `Missing in source - Table Dropped`;
tables present in both yield no row; the output is sorted by
(difference label, table name) ascending. -/
theorem c8_amended_presence_and_order (sourceTables cloneTables : List String)
    (hs : sourceTables.Nodup) (hc : cloneTables.Nodup) :
    (∀ t, t ∈ sourceTables → t ∉ cloneTables →
      (compare_table_differences sourceTables cloneTables).countP
        (fun r => r == (t, "Missing in clone - Table Added")) = 1) ∧
    (∀ t, t ∈ cloneTables → t ∉ sourceTables →
      (compare_table_differences sourceTables cloneTables).countP
        (fun r => r == (t, "Missing in source - Table Dropped")) = 1) ∧
    (∀ t, t ∈ sourceTables → t ∈ cloneTables →
      (compare_table_differences sourceTables cloneTables).countP
        (fun r => r.1 == t) = 0) ∧
    List.Sorted rowLE (compare_table_differences sourceTables cloneTables) := by
  refine ⟨?_, ?_, ?_, ?_⟩
  · intro t ht htc
    have hcf : (sourceTables.filter (fun t0 => decide (t0 ∉ cloneTables))).count t =
        sourceTables.count t := by
      apply List.count_filter
      exact decide_eq_true htc
    rw [compare_table_differences_countP, countP_label_map, countP_label_map,
      if_neg (by decide), if_pos rfl, hcf, List.count_eq_one_of_mem hs ht]
  · intro t ht hts
    have hcf : (cloneTables.filter (fun t0 => decide (t0 ∉ sourceTables))).count t =
        cloneTables.count t := by
      apply List.count_filter
      exact decide_eq_true hts
    rw [compare_table_differences_countP, countP_label_map, countP_label_map,
      if_pos rfl, if_neg (by decide), hcf, List.count_eq_one_of_mem hc ht]
  · intro t ht htc
    rw [compare_table_differences_countP, countP_fst_map, countP_fst_map,
      List.count_eq_zero.mpr (by simp [List.mem_filter, ht]),
      List.count_eq_zero.mpr (by simp [List.mem_filter, htc])]
  · unfold compare_table_differences
    exact List.sorted_insertionSort rowLE _

/-- C8 amended witness: sources `A, B`, clones `B, C`. -/
theorem c8_amended_witness :
    (compare_table_differences ["A", "B"] ["B", "C"]).countP
        (fun r => r == ("A", "Missing in clone - Table Added")) = 1 ∧
      (compare_table_differences ["A", "B"] ["B", "C"]).countP
        (fun r => r == ("C", "Missing in source - Table Dropped")) = 1 ∧
      (compare_table_differences ["A", "B"] ["B", "C"]).countP
        (fun r => r.1 == "B") = 0 ∧
      List.Sorted rowLE (compare_table_differences ["A", "B"] ["B", "C"]) := by
  obtain ⟨h1, h2, h3, h4⟩ := c8_amended_presence_and_order ["A", "B"] ["B", "C"]
    (by decide) (by decide)
  exact ⟨h1 "A" (by decide) (by decide), h2 "C" (by decide) (by decide),
    h3 "B" (by decide) (by decide), h4⟩
